import Mathlib

/-!
Shallow embedding of the StereoGlue `NestedRANSACOptimizer`
(src/include/local_optimization/nested_ransac_optimizer.h) and of the
settings structs (src/include/settings.h), together with theorems settling
the claims about them.

Conventions of the embedding:
* `size_t` values are modelled as `Nat`; the one place where unsigned
  wraparound matters (`estimatedInliers_.size() - 1` on an empty vector) is
  modelled explicitly by `usub1`, and the product
  `sampleSizeMultiplier * (non)sampleSize` is reduced `% 2 ^ 64`.
* The collaborator classes `scoring::Score`, `scoring::AbstractScoring`,
  `samplers::UniformRandomSampler` and `estimator::Estimator` are not under
  src/; they are modelled from the spec (see the doc comment of each
  definition).  The data matrices passed to `run` are fixed for the whole
  call, so the scoring and estimation calls are absorbed into oracles that
  are functions of the only varying argument (the model, resp. the sample).
* The in-loop control flow (`break`, the early `return` of the multi-match
  overload, `continue`) is represented by the `StepOut` outcome of one loop
  iteration, and the loop itself by structural recursion on the remaining
  iteration budget.
* The states carry ghost fields (`iters`, `sizesComputed`, `copyBranch`,
  `earlyReturn`) that record which control path executed; they influence no
  computed output.
-/

namespace StereoGlue

/-- Modelled from the spec: `scoring::Score` (scoring/types.h is not under
src/).  A record with an aggregate quality number (larger is better), an
inlier count, and a validity flag; a default-constructed score is the
invalid sentinel, smaller than every valid score.  The quality is a
`double` in the source; only its total order is ever used by the optimizer,
so it is modelled by an `Int`. -/
structure Score where
  valid : Bool
  value : Int
  inlierNumber : Nat
deriving DecidableEq

/-- The default-constructed `scoring::Score()`: the invalid sentinel. -/
def Score.invalid : Score := ⟨false, 0, 0⟩

/-- Modelled from the spec: the strict comparison `operator>` on scores.
"Ordering is total: compare by aggregate quality; tie-break by inlier
count.  An invalid score sentinel is less than every valid score." -/
def Score.gtb (a b : Score) : Bool :=
  if a.valid = b.valid then
    if a.value = b.value then decide (b.inlierNumber < a.inlierNumber)
    else decide (b.value < a.value)
  else a.valid

/-- `2 ^ 64`, the modulus of `size_t` arithmetic. -/
def u64 : Nat := 2 ^ 64

/-- `n - 1` in `size_t` arithmetic, for `n` the size of a `std::vector`
(hence `n < 2 ^ 64`): it wraps to `2 ^ 64 - 1` exactly when `n = 0`. -/
def usub1 (n : Nat) : Nat := if n = 0 then u64 - 1 else n - 1

/-- Lines 131-133 resp. 250-252 of nested_ransac_optimizer.h: the current
sample size is `estimatedInliers_.size() - 1` (in `size_t` arithmetic),
clamped from above to `kNonMinimalSampleSize`. -/
def computeSampleSize (kNonMinimalSampleSize n : Nat) : Nat :=
  let c := usub1 n
  if kNonMinimalSampleSize ≤ c then kNonMinimalSampleSize else c

/-- Modelled from the spec: `samplers::UniformRandomSampler` (not under
src/).  `poolBound` records the argument of the last `initialize` call;
`rng` is the deterministic generator state. -/
structure UniformRandomSampler where
  poolBound : Nat
  rng : Nat
deriving DecidableEq

/-- Modelled from the spec: `initialize(pool_size)` reconfigures the
sampler for the given pool; the generator stream is preserved. -/
def samplerInitCall (s : UniformRandomSampler) (poolSize : Nat) :
    UniformRandomSampler :=
  { s with poolBound := poolSize }

/-- Modelled from the spec: `sample(pool_size, k, out)` "returns false when
k > pool_size"; otherwise it deterministically draws `k` indices using the
generator, advancing its state.  The draw itself is an oracle
`draw rng poolSize k = (indices, rng')`. -/
def sampleCall (draw : Nat → Nat → Nat → List Nat × Nat)
    (s : UniformRandomSampler) (poolSize k : Nat) :
    Option (List Nat) × UniformRandomSampler :=
  if poolSize < k then (none, s)
  else
    let r := draw s.rng poolSize k
    (some r.1, { s with rng := r.2 })

/-- The fixed surroundings of one multi-match `run` call: the estimator's
non-minimal sample size, the scoring of a model over the fixed data
matrices (returning the score and the inlier match list it fills into the
output vector), the non-minimal estimation from a list of matches (the
correspondence matrix of lines 163-172 is a function of the matches, the
data matrices being fixed; `none` models the estimator returning false),
the sampler's draw oracle and its construction seed. -/
structure MultiEnv (M : Type) where
  nonMinimalSampleSize : Nat
  scoreModel : M → Score × List (Nat × Nat)
  estimateNonminimal : List (Nat × Nat) → Option (List M)
  draw : Nat → Nat → Nat → List Nat × Nat
  seed : Nat

/-- The fixed surroundings of one single-match `run` call.  This overload
calls `kEstimator_->sampleSize()` (the minimal sample size) both for the
sample-size budget and for the loop floor; `nonMinimalSampleSize` is also
exposed by the estimator but unused on this path. -/
structure SingleEnv (M : Type) where
  sampleSize : Nat
  nonMinimalSampleSize : Nat
  scoreModel : M → Score × List Nat
  estimateNonminimal : List Nat → Option (List M)
  draw : Nat → Nat → Nat → List Nat × Nat
  seed : Nat

/-- `NestedRANSACOptimizer`'s own state: the constructor sets
`maxIterations(50), sampleSizeMultiplier(7)`. -/
structure NestedRANSACOptimizer where
  maxIterations : Nat := 50
  sampleSizeMultiplier : Nat := 7
deriving DecidableEq

/-- The default-constructed `NestedRANSACOptimizer()`. -/
def NestedRANSACOptimizer.mkDefault : NestedRANSACOptimizer := {}

/-- `kNonMinimalSampleSize` of the multi-match overload (line 103):
`sampleSizeMultiplier * kEstimator_->nonMinimalSampleSize()` in `size_t`
arithmetic. -/
def kNonMinimalSizeMulti {M : Type} (opt : NestedRANSACOptimizer)
    (env : MultiEnv M) : Nat :=
  opt.sampleSizeMultiplier * env.nonMinimalSampleSize % u64

/-- `kNonMinimalSampleSize` of the single-match overload (line 230):
`sampleSizeMultiplier * kEstimator_->sampleSize()` in `size_t`
arithmetic. -/
def kNonMinimalSizeSingle {M : Type} (opt : NestedRANSACOptimizer)
    (env : SingleEnv M) : Nat :=
  opt.sampleSizeMultiplier * env.sampleSize % u64

/-- The mutable state of the multi-match `run` body, plus ghost fields:
`iters` counts loop iterations entered, `sizesComputed` records
`currentSampleSize` for every iteration that passed the break check,
`copyBranch` records whether the copy-all-inliers branch (lines 140-144)
ever ran, `earlyReturn` whether the loop was left by the `return` of line
180. -/
structure MultiState (M : Type) where
  estimatedModel : M
  estimatedScore : Score
  estimatedInliers : List (Nat × Nat)
  sampler : UniformRandomSampler
  iters : Nat
  sizesComputed : List Nat
  copyBranch : Bool
  earlyReturn : Bool
deriving DecidableEq

/-- The mutable state of the single-match `run` body, with the same ghost
fields (`earlyReturn` stays false on this path: the estimator failure at
line 287 is a `continue`). -/
structure SingleState (M : Type) where
  estimatedModel : M
  estimatedScore : Score
  estimatedInliers : List Nat
  sampler : UniformRandomSampler
  iters : Nat
  sizesComputed : List Nat
  copyBranch : Bool
  earlyReturn : Bool
deriving DecidableEq

/-- Outcome of one loop iteration: `stop` is the `break` of lines 136-137 /
255-256, `abort` the early `return` of line 180, `next` everything that
falls through to the next iteration. -/
inductive StepOut (σ : Type) where
  | stop : σ → StepOut σ
  | abort : σ → StepOut σ
  | next : σ → StepOut σ
deriving DecidableEq

/-- The state carried by a step outcome. -/
def StepOut.state {σ : Type} : StepOut σ → σ
  | .stop s => s
  | .abort s => s
  | .next s => s

/-- Whether the outcome is the `break`. -/
def StepOut.isStop {σ : Type} : StepOut σ → Bool
  | .stop _ => true
  | _ => false

/-- Whether the outcome is the early `return`. -/
def StepOut.isAbort {σ : Type} : StepOut σ → Bool
  | .abort _ => true
  | _ => false

/-- Whether the outcome falls through to the next iteration. -/
def StepOut.isNext {σ : Type} : StepOut σ → Bool
  | .next _ => true
  | _ => false

/-- Lines 140-156 of the multi-match overload: produce `currentMatches`
(the first `c` entries), the sampler after the call, and whether the
copy-all-inliers branch ran.  `none` in the first component models
`sampler.sample` returning false (the `continue` of line 151). -/
def multiDraw {M : Type} (env : MultiEnv M) (st : MultiState M) (c : Nat) :
    Option (List (Nat × Nat)) × UniformRandomSampler × Bool :=
  if c = st.estimatedInliers.length then
    (some (st.estimatedInliers.take c), st.sampler, true)
  else
    match sampleCall env.draw st.sampler st.estimatedInliers.length c with
    | (none, s) => (none, s, false)
    | (some idxs, s) =>
      (some (idxs.map fun i => st.estimatedInliers.getD i (0, 0)), s, false)

/-- Lines 258-275 of the single-match overload: produce the data-point
indices `currentSample` (first `c` entries) after the in-place replacement
of line 274, the sampler after the call, and whether the copy branch
ran. -/
def singleDraw {M : Type} (env : SingleEnv M) (st : SingleState M)
    (c : Nat) : Option (List Nat) × UniformRandomSampler × Bool :=
  if c = st.estimatedInliers.length then
    (some (st.estimatedInliers.take c), st.sampler, true)
  else
    match sampleCall env.draw st.sampler st.estimatedInliers.length c with
    | (none, s) => (none, s, false)
    | (some idxs, s) =>
      (some (idxs.map fun i => st.estimatedInliers.getD i 0), s, false)

/-- Lines 196-204 resp. 296-304: compare one candidate model's fresh score
against the best so far; on strict improvement adopt model, score and
inliers and re-run `sampler.initialize(estimatedInliers_.size() - 1)`. -/
def updateBestMulti {M : Type} (env : MultiEnv M) (st : MultiState M)
    (m : M) : MultiState M :=
  let r := env.scoreModel m
  if Score.gtb r.1 st.estimatedScore then
    { st with
      estimatedModel := m
      estimatedScore := r.1
      estimatedInliers := r.2
      sampler := samplerInitCall st.sampler (usub1 r.2.length) }
  else st

/-- The single-match counterpart of `updateBestMulti`. -/
def updateBestSingle {M : Type} (env : SingleEnv M) (st : SingleState M)
    (m : M) : SingleState M :=
  let r := env.scoreModel m
  if Score.gtb r.1 st.estimatedScore then
    { st with
      estimatedModel := m
      estimatedScore := r.1
      estimatedInliers := r.2
      sampler := samplerInitCall st.sampler (usub1 r.2.length) }
  else st

/-- The sample handed to `estimateModelNonminimal` by one multi-match
iteration, or `none` when the iteration breaks out of the loop or its
`sampler.sample` call fails. -/
def multiEstInput {M : Type} (opt : NestedRANSACOptimizer)
    (env : MultiEnv M) (st : MultiState M) : Option (List (Nat × Nat)) :=
  let c := computeSampleSize (kNonMinimalSizeMulti opt env)
    st.estimatedInliers.length
  if c < env.nonMinimalSampleSize then none
  else (multiDraw env st c).1

/-- The sample handed to `estimateModelNonminimal` by one single-match
iteration, or `none` when the iteration breaks or its sampling fails. -/
def singleEstInput {M : Type} (opt : NestedRANSACOptimizer)
    (env : SingleEnv M) (st : SingleState M) : Option (List Nat) :=
  let c := computeSampleSize (kNonMinimalSizeSingle opt env)
    st.estimatedInliers.length
  if c < env.sampleSize then none
  else (singleDraw env st c).1

/-- One iteration of the multi-match inner loop (lines 128-206).  Note the
two overload-specific points: `currentlyEstimatedModels` starts with the
current best model (line 160), which is therefore rescored alongside the
fresh candidates, and an `estimateModelNonminimal` failure is the `return`
of line 180, leaving `run` altogether. -/
def multiStep {M : Type} (opt : NestedRANSACOptimizer) (env : MultiEnv M)
    (st : MultiState M) : StepOut (MultiState M) :=
  let c := computeSampleSize (kNonMinimalSizeMulti opt env)
    st.estimatedInliers.length
  let st1 := { st with iters := st.iters + 1 }
  if c < env.nonMinimalSampleSize then .stop st1
  else
    let d := multiDraw env st c
    let st2 := { st1 with
      sampler := d.2.1
      copyBranch := st1.copyBranch || d.2.2
      sizesComputed := st1.sizesComputed ++ [c] }
    match d.1 with
    | none => .next st2
    | some sampleMatches =>
      match env.estimateNonminimal sampleMatches with
      | none => .abort { st2 with earlyReturn := true }
      | some ms =>
        .next ((st2.estimatedModel :: ms).foldl (updateBestMulti env) st2)

/-- One iteration of the single-match inner loop (lines 247-306): here the
model vector is cleared without re-adding the current best (line 278), and
an `estimateModelNonminimal` failure is the `continue` of line 287. -/
def singleStep {M : Type} (opt : NestedRANSACOptimizer) (env : SingleEnv M)
    (st : SingleState M) : StepOut (SingleState M) :=
  let c := computeSampleSize (kNonMinimalSizeSingle opt env)
    st.estimatedInliers.length
  let st1 := { st with iters := st.iters + 1 }
  if c < env.sampleSize then .stop st1
  else
    let d := singleDraw env st c
    let st2 := { st1 with
      sampler := d.2.1
      copyBranch := st1.copyBranch || d.2.2
      sizesComputed := st1.sizesComputed ++ [c] }
    match d.1 with
    | none => .next st2
    | some sample =>
      match env.estimateNonminimal sample with
      | none => .next st2
      | some ms => .next (ms.foldl (updateBestSingle env) st2)

/-- The multi-match inner loop, by structural recursion on the remaining
iteration budget (`maxIterations` at the entry of `run`). -/
def multiLoop {M : Type} (opt : NestedRANSACOptimizer) (env : MultiEnv M) :
    Nat → MultiState M → MultiState M
  | 0, st => st
  | Nat.succ f, st =>
    match multiStep opt env st with
    | .stop s => s
    | .abort s => s
    | .next s => multiLoop opt env f s

/-- The single-match inner loop. -/
def singleLoop {M : Type} (opt : NestedRANSACOptimizer)
    (env : SingleEnv M) : Nat → SingleState M → SingleState M
  | 0, st => st
  | Nat.succ f, st =>
    match singleStep opt env st with
    | .stop s => s
    | .abort s => s
    | .next s => singleLoop opt env f s

/-- Lines 97-125: the state right before the multi-match loop.
`estimatedModel_` is set to `kModel_`, the score and inlier output are the
rescoring of that model over the full data, and the freshly constructed
sampler is initialized with `estimatedInliers_.size() - 1`. -/
def runMultiInit {M : Type} (env : MultiEnv M) (kModel : M) :
    MultiState M :=
  let r := env.scoreModel kModel
  { estimatedModel := kModel
    estimatedScore := r.1
    estimatedInliers := r.2
    sampler := samplerInitCall ⟨0, env.seed⟩ (usub1 r.2.length)
    iters := 0
    sizesComputed := []
    copyBranch := false
    earlyReturn := false }

/-- Lines 224-244: the state right before the single-match loop. -/
def runSingleInit {M : Type} (env : SingleEnv M) (kModel : M) :
    SingleState M :=
  let r := env.scoreModel kModel
  { estimatedModel := kModel
    estimatedScore := r.1
    estimatedInliers := r.2
    sampler := samplerInitCall ⟨0, env.seed⟩ (usub1 r.2.length)
    iters := 0
    sizesComputed := []
    copyBranch := false
    earlyReturn := false }

/-- The multi-match `NestedRANSACOptimizer::run` (lines 79-207).  The
parameters `kScore` and `kInliers` mirror `kScore_` and `kInliers_`, which
the body never reads; the final state carries the output parameters
`estimatedModel_`, `estimatedScore_`, `estimatedInliers_`. -/
def NestedRANSACOptimizer.runMulti {M : Type} (opt : NestedRANSACOptimizer)
    (env : MultiEnv M) (kModel : M) (kScore : Score)
    (kInliers : List (Nat × Nat)) : MultiState M :=
  multiLoop opt env opt.maxIterations (runMultiInit env kModel)

/-- The single-match `NestedRANSACOptimizer::run` (lines 210-310). -/
def NestedRANSACOptimizer.runSingle {M : Type}
    (opt : NestedRANSACOptimizer) (env : SingleEnv M) (kModel : M)
    (kScore : Score) (kInliers : List Nat) : SingleState M :=
  singleLoop opt env opt.maxIterations (runSingleInit env kModel)

/-- Modelled from the spec: `scoring::ScoringType` (scoring/types.h is not
under src/); the variant list is `{MSAC, MAGSAC}`. -/
inductive ScoringType where
  | MSAC
  | MAGSAC
deriving DecidableEq

/-- Modelled from the spec: `samplers::SamplerType` (samplers/types.h is
not under src/); the variant list is `{Uniform, PROSAC,
NeighborhoodGuided}`. -/
inductive SamplerType where
  | Uniform
  | PROSAC
  | NeighborhoodGuided
deriving DecidableEq

/-- Modelled from the spec: `local_optimization::LocalOptimizationType`
(local_optimization/types.h is not under src/); the variant list is
`{None, NestedRANSAC, IRLS}`. -/
inductive LocalOptimizationType where
  | None
  | NestedRANSAC
  | IRLS
deriving DecidableEq

/-- Modelled from the spec: `termination::TerminationType`
(termination/types.h is not under src/); the variant list is `{RANSAC,
PROSAC}`. -/
inductive TerminationType where
  | RANSAC
  | PROSAC
deriving DecidableEq

/-- `struct LocalOptimizationSettings` of src/include/settings.h, with its
member initializers. -/
structure LocalOptimizationSettings where
  maxIterations : Nat := 50
  sampleSizeMultiplier : Nat := 7
deriving DecidableEq

/-- `struct RANSACSettings` of src/include/settings.h, with its member
initializers.  The `double` literals `1.5` and `0.99` are modelled by the
rationals the source literals denote; no arithmetic is done on them
here. -/
structure RANSACSettings where
  minIterations : Nat := 1000
  maxIterations : Nat := 5000
  coreNumber : Nat := 4
  inlierThreshold : ℚ := 1.5
  confidence : ℚ := 0.99
  scoring : ScoringType := ScoringType.MAGSAC
  sampler : SamplerType := SamplerType.Uniform
  localOptimization : LocalOptimizationType :=
    LocalOptimizationType.NestedRANSAC
  finalOptimization : LocalOptimizationType := LocalOptimizationType.IRLS
  terminationCriterion : TerminationType := TerminationType.RANSAC
  localOptimizationSettings : LocalOptimizationSettings := {}
  finalOptimizationSettings : LocalOptimizationSettings := {}
deriving DecidableEq

/-- A default-constructed `RANSACSettings`. -/
def RANSACSettings.mkDefault : RANSACSettings := {}

/-- A default-constructed `LocalOptimizationSettings`. -/
def LocalOptimizationSettings.mkDefault : LocalOptimizationSettings := {}

/-! ### Concrete instantiations used to evaluate the embedding -/

/-- A deterministic draw oracle: emit the first `k` indices and advance the
generator. -/
def testDraw : Nat → Nat → Nat → List Nat × Nat :=
  fun r _ k => (List.range k, r + 1)

/-- An optimizer with a small iteration budget. -/
def optSmall : NestedRANSACOptimizer :=
  { maxIterations := 2, sampleSizeMultiplier := 7 }

/-- An optimizer with one iteration and unit multiplier. -/
def optUnit : NestedRANSACOptimizer :=
  { maxIterations := 1, sampleSizeMultiplier := 1 }

/-- A multi-match call context whose rescoring of every model yields a
valid score of quality 0 with no inliers. -/
def envRescoreZero : MultiEnv Nat :=
  { nonMinimalSampleSize := 2
    scoreModel := fun _ => (⟨true, 0, 0⟩, [])
    estimateNonminimal := fun _ => some []
    draw := testDraw
    seed := 0 }

/-- A multi-match call context with three inliers per model and an
always-failing non-minimal estimator. -/
def envEstFailMulti : MultiEnv Nat :=
  { nonMinimalSampleSize := 1
    scoreModel := fun _ => (⟨true, 0, 3⟩, [(0, 0), (1, 1), (2, 2)])
    estimateNonminimal := fun _ => none
    draw := testDraw
    seed := 0 }

/-- A single-match call context with three inliers per model and an
always-failing non-minimal estimator. -/
def envEstFailSingle : SingleEnv Nat :=
  { sampleSize := 1
    nonMinimalSampleSize := 1
    scoreModel := fun _ => (⟨true, 0, 3⟩, [0, 1, 2])
    estimateNonminimal := fun _ => none
    draw := testDraw
    seed := 0 }

/-- A multi-match call context whose rescoring yields quality 5 and an
empty inlier list. -/
def envRescoreFive : MultiEnv Nat :=
  { nonMinimalSampleSize := 2
    scoreModel := fun _ => (⟨true, 5, 0⟩, [])
    estimateNonminimal := fun _ => some []
    draw := testDraw
    seed := 0 }

/-- A single-match call context with minimal size 2, non-minimal size 5
and four inliers per model. -/
def envMinimalFloor : SingleEnv Nat :=
  { sampleSize := 2
    nonMinimalSampleSize := 5
    scoreModel := fun _ => (⟨true, 1, 4⟩, [0, 1, 2, 3])
    estimateNonminimal := fun _ => some []
    draw := testDraw
    seed := 0 }

/-- A single-match call context whose rescoring yields an empty inlier
list. -/
def envEmptySingle : SingleEnv Nat :=
  { sampleSize := 2
    nonMinimalSampleSize := 3
    scoreModel := fun _ => (⟨true, 0, 0⟩, [])
    estimateNonminimal := fun _ => some []
    draw := testDraw
    seed := 0 }

/-! ### Order lemmas for `Score.gtb` -/

/-- `Score.gtb` is irreflexive. -/
theorem Score.gtb_irrefl (a : Score) : Score.gtb a a = false := by
  simp [Score.gtb]

/-- `Score.gtb` is transitive. -/
theorem Score.gtb_trans {a b c : Score} (hab : Score.gtb a b = true)
    (hbc : Score.gtb b c = true) : Score.gtb a c = true := by
  cases a with
  | mk av avv ai =>
    cases b with
    | mk bv bvv bi =>
      cases c with
      | mk cv cvv ci =>
        simp only [Score.gtb] at hab hbc ⊢
        cases av <;> cases bv <;> cases cv <;>
          split_ifs at hab hbc ⊢ <;> simp_all <;> omega

/-- If `s` strictly improves on `old` and `base` did not exceed `old`,
then `base` does not exceed `s` (the best-so-far invariant step). -/
theorem Score.gtb_mono {base old s : Score} (h : Score.gtb s old = true)
    (hb : Score.gtb base old = false) : Score.gtb base s = false := by
  by_contra hc
  have hc' : Score.gtb base s = true := by
    cases hgs : Score.gtb base s
    · exact absurd hgs hc
    · rfl
  exact absurd (Score.gtb_trans hc' h) (by simp [hb])

/-! ### Helper lemmas about the embedded operations -/

/-- `currentSampleSize` is the minimum of the budget and the wrapped
decrement of the inlier count. -/
theorem computeSampleSize_eq_min (k n : Nat) :
    computeSampleSize k n = min k (usub1 n) := by
  simp only [computeSampleSize, Nat.min_def]

/-- The multi-match budget is a `size_t` value. -/
theorem kNonMinimalSizeMulti_lt_u64 {M : Type} (opt : NestedRANSACOptimizer)
    (env : MultiEnv M) : kNonMinimalSizeMulti opt env < u64 := by
  have : 0 < u64 := by simp [u64]
  exact Nat.mod_lt _ this

/-- The single-match budget is a `size_t` value. -/
theorem kNonMinimalSizeSingle_lt_u64 {M : Type}
    (opt : NestedRANSACOptimizer) (env : SingleEnv M) :
    kNonMinimalSizeSingle opt env < u64 := by
  have : 0 < u64 := by simp [u64]
  exact Nat.mod_lt _ this

/-- On an empty inlier list the wrapped decrement dominates, so the
computed sample size is the whole budget. -/
theorem computeSampleSize_zero (k : Nat) (hk : k < u64) :
    computeSampleSize k 0 = k := by
  simp only [computeSampleSize, usub1]
  have : k ≤ u64 - 1 := by omega
  simp [this]

/-- A positive computed sample size never equals the inlier count: for an
empty list it is positive, for a nonempty list it is at most the count
minus one. -/
theorem computeSampleSize_ne_length (k n : Nat)
    (h : 1 ≤ computeSampleSize k n) : computeSampleSize k n ≠ n := by
  rcases n with _ | m
  · omega
  · have hu : usub1 (m + 1) = m := by simp [usub1]
    rw [computeSampleSize_eq_min, hu] at h ⊢
    omega

/-- `updateBestMulti` never touches the ghost fields. -/
theorem updateBestMulti_ghost {M : Type} (env : MultiEnv M)
    (st : MultiState M) (m : M) :
    (updateBestMulti env st m).iters = st.iters ∧
    (updateBestMulti env st m).sizesComputed = st.sizesComputed ∧
    (updateBestMulti env st m).copyBranch = st.copyBranch ∧
    (updateBestMulti env st m).earlyReturn = st.earlyReturn := by
  simp only [updateBestMulti]
  split <;> exact ⟨rfl, rfl, rfl, rfl⟩

/-- `updateBestSingle` never touches the ghost fields. -/
theorem updateBestSingle_ghost {M : Type} (env : SingleEnv M)
    (st : SingleState M) (m : M) :
    (updateBestSingle env st m).iters = st.iters ∧
    (updateBestSingle env st m).sizesComputed = st.sizesComputed ∧
    (updateBestSingle env st m).copyBranch = st.copyBranch ∧
    (updateBestSingle env st m).earlyReturn = st.earlyReturn := by
  simp only [updateBestSingle]
  split <;> exact ⟨rfl, rfl, rfl, rfl⟩

/-- Scanning a model list never touches the ghost fields. -/
theorem foldl_updateBestMulti_ghost {M : Type} (env : MultiEnv M)
    (ms : List M) (st : MultiState M) :
    (ms.foldl (updateBestMulti env) st).iters = st.iters ∧
    (ms.foldl (updateBestMulti env) st).sizesComputed = st.sizesComputed ∧
    (ms.foldl (updateBestMulti env) st).copyBranch = st.copyBranch ∧
    (ms.foldl (updateBestMulti env) st).earlyReturn = st.earlyReturn := by
  induction ms generalizing st with
  | nil => exact ⟨rfl, rfl, rfl, rfl⟩
  | cons a l ih =>
    simp only [List.foldl_cons]
    obtain ⟨h1, h2, h3, h4⟩ := ih (updateBestMulti env st a)
    obtain ⟨g1, g2, g3, g4⟩ := updateBestMulti_ghost env st a
    exact ⟨h1.trans g1, h2.trans g2, h3.trans g3, h4.trans g4⟩

/-- Scanning a model list never touches the ghost fields. -/
theorem foldl_updateBestSingle_ghost {M : Type} (env : SingleEnv M)
    (ms : List M) (st : SingleState M) :
    (ms.foldl (updateBestSingle env) st).iters = st.iters ∧
    (ms.foldl (updateBestSingle env) st).sizesComputed = st.sizesComputed ∧
    (ms.foldl (updateBestSingle env) st).copyBranch = st.copyBranch ∧
    (ms.foldl (updateBestSingle env) st).earlyReturn = st.earlyReturn := by
  induction ms generalizing st with
  | nil => exact ⟨rfl, rfl, rfl, rfl⟩
  | cons a l ih =>
    simp only [List.foldl_cons]
    obtain ⟨h1, h2, h3, h4⟩ := ih (updateBestSingle env st a)
    obtain ⟨g1, g2, g3, g4⟩ := updateBestSingle_ghost env st a
    exact ⟨h1.trans g1, h2.trans g2, h3.trans g3, h4.trans g4⟩

/-- Adoption happens only on strict improvement, so no score that already
dominated the best can dominate the new best. -/
theorem updateBestMulti_score {M : Type} (env : MultiEnv M)
    (st : MultiState M) (m : M) (base : Score)
    (hb : Score.gtb base st.estimatedScore = false) :
    Score.gtb base (updateBestMulti env st m).estimatedScore = false := by
  simp only [updateBestMulti]
  cases h : Score.gtb (env.scoreModel m).1 st.estimatedScore with
  | false => simp [h, hb]
  | true => simpa [h] using Score.gtb_mono h hb

/-- Adoption happens only on strict improvement (single-match path). -/
theorem updateBestSingle_score {M : Type} (env : SingleEnv M)
    (st : SingleState M) (m : M) (base : Score)
    (hb : Score.gtb base st.estimatedScore = false) :
    Score.gtb base (updateBestSingle env st m).estimatedScore = false := by
  simp only [updateBestSingle]
  cases h : Score.gtb (env.scoreModel m).1 st.estimatedScore with
  | false => simp [h, hb]
  | true => simpa [h] using Score.gtb_mono h hb

/-- The model scan keeps the best-so-far score dominant. -/
theorem foldl_updateBestMulti_score {M : Type} (env : MultiEnv M)
    (ms : List M) (st : MultiState M) (base : Score)
    (hb : Score.gtb base st.estimatedScore = false) :
    Score.gtb base (ms.foldl (updateBestMulti env) st).estimatedScore
      = false := by
  induction ms generalizing st with
  | nil => exact hb
  | cons a l ih =>
    simp only [List.foldl_cons]
    exact ih _ (updateBestMulti_score env st a base hb)

/-- The model scan keeps the best-so-far score dominant (single-match). -/
theorem foldl_updateBestSingle_score {M : Type} (env : SingleEnv M)
    (ms : List M) (st : SingleState M) (base : Score)
    (hb : Score.gtb base st.estimatedScore = false) :
    Score.gtb base (ms.foldl (updateBestSingle env) st).estimatedScore
      = false := by
  induction ms generalizing st with
  | nil => exact hb
  | cons a l ih =>
    simp only [List.foldl_cons]
    exact ih _ (updateBestSingle_score env st a base hb)

/-- Every entered multi-match iteration increments the iteration count by
exactly one. -/
theorem multiStep_iters {M : Type} (opt : NestedRANSACOptimizer)
    (env : MultiEnv M) (st : MultiState M) :
    ((multiStep opt env st).state).iters = st.iters + 1 := by
  simp only [multiStep]
  split
  · rfl
  · rcases h1 : (multiDraw env st (computeSampleSize
        (kNonMinimalSizeMulti opt env) st.estimatedInliers.length)).1
      with _ | sm
    · simp [h1, StepOut.state]
    · rcases h2 : env.estimateNonminimal sm with _ | ms
      · simp [h1, h2, StepOut.state]
      · simp only [h1, h2, StepOut.state]
        rw [(foldl_updateBestMulti_ghost env _ _).1]

/-- Every entered single-match iteration increments the iteration count by
exactly one. -/
theorem singleStep_iters {M : Type} (opt : NestedRANSACOptimizer)
    (env : SingleEnv M) (st : SingleState M) :
    ((singleStep opt env st).state).iters = st.iters + 1 := by
  simp only [singleStep]
  split
  · rfl
  · rcases h1 : (singleDraw env st (computeSampleSize
        (kNonMinimalSizeSingle opt env) st.estimatedInliers.length)).1
      with _ | sm
    · simp [h1, StepOut.state]
    · rcases h2 : env.estimateNonminimal sm with _ | ms
      · simp [h1, h2, StepOut.state]
      · simp only [h1, h2, StepOut.state]
        rw [(foldl_updateBestSingle_ghost env _ _).1]

/-- One multi-match iteration keeps the best-so-far score dominant over any
previously dominated score. -/
theorem multiStep_score {M : Type} (opt : NestedRANSACOptimizer)
    (env : MultiEnv M) (st : MultiState M) (base : Score)
    (hb : Score.gtb base st.estimatedScore = false) :
    Score.gtb base ((multiStep opt env st).state).estimatedScore = false := by
  simp only [multiStep]
  split
  · exact hb
  · rcases h1 : (multiDraw env st (computeSampleSize
        (kNonMinimalSizeMulti opt env) st.estimatedInliers.length)).1
      with _ | sm
    · simpa [h1, StepOut.state] using hb
    · rcases h2 : env.estimateNonminimal sm with _ | ms
      · simpa [h1, h2, StepOut.state] using hb
      · simp only [h1, h2, StepOut.state]
        exact foldl_updateBestMulti_score env _ _ base hb

/-- One single-match iteration keeps the best-so-far score dominant over
any previously dominated score. -/
theorem singleStep_score {M : Type} (opt : NestedRANSACOptimizer)
    (env : SingleEnv M) (st : SingleState M) (base : Score)
    (hb : Score.gtb base st.estimatedScore = false) :
    Score.gtb base ((singleStep opt env st).state).estimatedScore
      = false := by
  simp only [singleStep]
  split
  · exact hb
  · rcases h1 : (singleDraw env st (computeSampleSize
        (kNonMinimalSizeSingle opt env) st.estimatedInliers.length)).1
      with _ | sm
    · simpa [h1, StepOut.state] using hb
    · rcases h2 : env.estimateNonminimal sm with _ | ms
      · simpa [h1, h2, StepOut.state] using hb
      · simp only [h1, h2, StepOut.state]
        exact foldl_updateBestSingle_score env _ _ base hb

/-- When the requested sample size differs from the inlier count, the
copy-all-inliers branch does not run. -/
theorem multiDraw_flag {M : Type} (env : MultiEnv M) (st : MultiState M)
    (c : Nat) (hc : c ≠ st.estimatedInliers.length) :
    (multiDraw env st c).2.2 = false := by
  simp only [multiDraw, if_neg hc]
  cases hs : sampleCall env.draw st.sampler st.estimatedInliers.length c with
  | mk o s => cases o <;> simp [hs]

/-- When the requested sample size differs from the inlier count, the
copy-all-inliers branch does not run (single-match path). -/
theorem singleDraw_flag {M : Type} (env : SingleEnv M) (st : SingleState M)
    (c : Nat) (hc : c ≠ st.estimatedInliers.length) :
    (singleDraw env st c).2.2 = false := by
  simp only [singleDraw, if_neg hc]
  cases hs : sampleCall env.draw st.sampler st.estimatedInliers.length c with
  | mk o s => cases o <;> simp [hs]

/-- With a positive non-minimal floor, one multi-match iteration never
takes the copy-all-inliers branch. -/
theorem multiStep_copyBranch {M : Type} (opt : NestedRANSACOptimizer)
    (env : MultiEnv M) (st : MultiState M)
    (h : 1 ≤ env.nonMinimalSampleSize) :
    ((multiStep opt env st).state).copyBranch = st.copyBranch := by
  simp only [multiStep]
  split
  case isTrue => rfl
  case isFalse hc =>
    have hone : 1 ≤ computeSampleSize (kNonMinimalSizeMulti opt env)
        st.estimatedInliers.length := by omega
    have hflag := multiDraw_flag env st _
      (computeSampleSize_ne_length _ _ hone)
    rcases h1 : (multiDraw env st (computeSampleSize
        (kNonMinimalSizeMulti opt env) st.estimatedInliers.length)).1
      with _ | sm
    · simp [h1, StepOut.state, hflag]
    · rcases h2 : env.estimateNonminimal sm with _ | ms
      · simp [h1, h2, StepOut.state, hflag]
      · simp only [h1, h2, StepOut.state]
        rw [(foldl_updateBestMulti_ghost env _ _).2.2.1]
        simp [hflag]

/-- With a positive minimal floor, one single-match iteration never takes
the copy-all-inliers branch. -/
theorem singleStep_copyBranch {M : Type} (opt : NestedRANSACOptimizer)
    (env : SingleEnv M) (st : SingleState M) (h : 1 ≤ env.sampleSize) :
    ((singleStep opt env st).state).copyBranch = st.copyBranch := by
  simp only [singleStep]
  split
  case isTrue => rfl
  case isFalse hc =>
    have hone : 1 ≤ computeSampleSize (kNonMinimalSizeSingle opt env)
        st.estimatedInliers.length := by omega
    have hflag := singleDraw_flag env st _
      (computeSampleSize_ne_length _ _ hone)
    rcases h1 : (singleDraw env st (computeSampleSize
        (kNonMinimalSizeSingle opt env) st.estimatedInliers.length)).1
      with _ | sm
    · simp [h1, StepOut.state, hflag]
    · rcases h2 : env.estimateNonminimal sm with _ | ms
      · simp [h1, h2, StepOut.state, hflag]
      · simp only [h1, h2, StepOut.state]
        rw [(foldl_updateBestSingle_ghost env _ _).2.2.1]
        simp [hflag]

/-- An iteration whose computed sample size is below the floor is exactly
the `break`. -/
theorem multiStep_stop_eq {M : Type} (opt : NestedRANSACOptimizer)
    (env : MultiEnv M) (st : MultiState M)
    (h : computeSampleSize (kNonMinimalSizeMulti opt env)
      st.estimatedInliers.length < env.nonMinimalSampleSize) :
    multiStep opt env st = .stop { st with iters := st.iters + 1 } := by
  simp only [multiStep]
  rw [if_pos h]

/-- An iteration whose computed sample size is below the floor is exactly
the `break` (single-match path). -/
theorem singleStep_stop_eq {M : Type} (opt : NestedRANSACOptimizer)
    (env : SingleEnv M) (st : SingleState M)
    (h : computeSampleSize (kNonMinimalSizeSingle opt env)
      st.estimatedInliers.length < env.sampleSize) :
    singleStep opt env st = .stop { st with iters := st.iters + 1 } := by
  simp only [singleStep]
  rw [if_pos h]

/-- On an empty inlier list (and a budget at or above the floor) a
multi-match iteration is a failed sampling followed by `continue`: only the
ghost fields move. -/
theorem multiStep_empty {M : Type} (opt : NestedRANSACOptimizer)
    (env : MultiEnv M) (st : MultiState M)
    (h1 : 1 ≤ env.nonMinimalSampleSize)
    (h2 : env.nonMinimalSampleSize ≤ kNonMinimalSizeMulti opt env)
    (h0 : st.estimatedInliers = []) :
    multiStep opt env st = .next { st with
      iters := st.iters + 1
      sizesComputed := st.sizesComputed ++ [kNonMinimalSizeMulti opt env] } := by
  have hK := kNonMinimalSizeMulti_lt_u64 opt env
  have hcz : computeSampleSize (kNonMinimalSizeMulti opt env) 0
      = kNonMinimalSizeMulti opt env := computeSampleSize_zero _ hK
  simp only [multiStep, multiDraw, sampleCall, h0, List.length_nil, hcz]
  rw [if_neg (by omega), if_neg (by omega), if_pos (by omega)]
  simp

/-- On an empty inlier list (and a budget at or above the floor) a
single-match iteration is a failed sampling followed by `continue`. -/
theorem singleStep_empty {M : Type} (opt : NestedRANSACOptimizer)
    (env : SingleEnv M) (st : SingleState M) (h1 : 1 ≤ env.sampleSize)
    (h2 : env.sampleSize ≤ kNonMinimalSizeSingle opt env)
    (h0 : st.estimatedInliers = []) :
    singleStep opt env st = .next { st with
      iters := st.iters + 1
      sizesComputed := st.sizesComputed ++ [kNonMinimalSizeSingle opt env] } := by
  have hK := kNonMinimalSizeSingle_lt_u64 opt env
  have hcz : computeSampleSize (kNonMinimalSizeSingle opt env) 0
      = kNonMinimalSizeSingle opt env := computeSampleSize_zero _ hK
  simp only [singleStep, singleDraw, sampleCall, h0, List.length_nil, hcz]
  rw [if_neg (by omega), if_neg (by omega), if_pos (by omega)]
  simp

/-- The multi-match loop enters at most as many iterations as its budget. -/
theorem multiLoop_iters_le {M : Type} (opt : NestedRANSACOptimizer)
    (env : MultiEnv M) :
    ∀ (f : Nat) (st : MultiState M),
      (multiLoop opt env f st).iters ≤ st.iters + f := by
  intro f
  induction f with
  | zero => intro st; simp [multiLoop]
  | succ n ih =>
    intro st
    have hstep := multiStep_iters opt env st
    simp only [multiLoop]
    cases hms : multiStep opt env st with
    | stop s =>
      rw [hms] at hstep
      simp only [StepOut.state] at hstep
      show s.iters ≤ st.iters + (n + 1)
      omega
    | abort s =>
      rw [hms] at hstep
      simp only [StepOut.state] at hstep
      show s.iters ≤ st.iters + (n + 1)
      omega
    | next s =>
      rw [hms] at hstep
      simp only [StepOut.state] at hstep
      show (multiLoop opt env n s).iters ≤ st.iters + (n + 1)
      have := ih s
      omega

/-- The single-match loop enters at most as many iterations as its
budget. -/
theorem singleLoop_iters_le {M : Type} (opt : NestedRANSACOptimizer)
    (env : SingleEnv M) :
    ∀ (f : Nat) (st : SingleState M),
      (singleLoop opt env f st).iters ≤ st.iters + f := by
  intro f
  induction f with
  | zero => intro st; simp [singleLoop]
  | succ n ih =>
    intro st
    have hstep := singleStep_iters opt env st
    simp only [singleLoop]
    cases hms : singleStep opt env st with
    | stop s =>
      rw [hms] at hstep
      simp only [StepOut.state] at hstep
      show s.iters ≤ st.iters + (n + 1)
      omega
    | abort s =>
      rw [hms] at hstep
      simp only [StepOut.state] at hstep
      show s.iters ≤ st.iters + (n + 1)
      omega
    | next s =>
      rw [hms] at hstep
      simp only [StepOut.state] at hstep
      show (singleLoop opt env n s).iters ≤ st.iters + (n + 1)
      have := ih s
      omega

/-- The multi-match loop keeps the best-so-far score dominant over any
score it already dominated at entry. -/
theorem multiLoop_score {M : Type} (opt : NestedRANSACOptimizer)
    (env : MultiEnv M) (base : Score) :
    ∀ (f : Nat) (st : MultiState M),
      Score.gtb base st.estimatedScore = false →
      Score.gtb base (multiLoop opt env f st).estimatedScore = false := by
  intro f
  induction f with
  | zero => intro st hb; simpa [multiLoop] using hb
  | succ n ih =>
    intro st hb
    have hstep := multiStep_score opt env st base hb
    simp only [multiLoop]
    cases hms : multiStep opt env st with
    | stop s => rw [hms] at hstep; simpa only [StepOut.state] using hstep
    | abort s => rw [hms] at hstep; simpa only [StepOut.state] using hstep
    | next s =>
      rw [hms] at hstep
      simp only [StepOut.state] at hstep
      exact ih s hstep

/-- The single-match loop keeps the best-so-far score dominant over any
score it already dominated at entry. -/
theorem singleLoop_score {M : Type} (opt : NestedRANSACOptimizer)
    (env : SingleEnv M) (base : Score) :
    ∀ (f : Nat) (st : SingleState M),
      Score.gtb base st.estimatedScore = false →
      Score.gtb base (singleLoop opt env f st).estimatedScore = false := by
  intro f
  induction f with
  | zero => intro st hb; simpa [singleLoop] using hb
  | succ n ih =>
    intro st hb
    have hstep := singleStep_score opt env st base hb
    simp only [singleLoop]
    cases hms : singleStep opt env st with
    | stop s => rw [hms] at hstep; simpa only [StepOut.state] using hstep
    | abort s => rw [hms] at hstep; simpa only [StepOut.state] using hstep
    | next s =>
      rw [hms] at hstep
      simp only [StepOut.state] at hstep
      exact ih s hstep

/-- With a positive non-minimal floor the multi-match loop never takes the
copy-all-inliers branch. -/
theorem multiLoop_copyBranch {M : Type} (opt : NestedRANSACOptimizer)
    (env : MultiEnv M) (h : 1 ≤ env.nonMinimalSampleSize) :
    ∀ (f : Nat) (st : MultiState M),
      (multiLoop opt env f st).copyBranch = st.copyBranch := by
  intro f
  induction f with
  | zero => intro st; simp [multiLoop]
  | succ n ih =>
    intro st
    have hstep := multiStep_copyBranch opt env st h
    simp only [multiLoop]
    cases hms : multiStep opt env st with
    | stop s => rw [hms] at hstep; simpa only [StepOut.state] using hstep
    | abort s => rw [hms] at hstep; simpa only [StepOut.state] using hstep
    | next s =>
      rw [hms] at hstep
      simp only [StepOut.state] at hstep
      exact (ih s).trans hstep

/-- With a positive minimal floor the single-match loop never takes the
copy-all-inliers branch. -/
theorem singleLoop_copyBranch {M : Type} (opt : NestedRANSACOptimizer)
    (env : SingleEnv M) (h : 1 ≤ env.sampleSize) :
    ∀ (f : Nat) (st : SingleState M),
      (singleLoop opt env f st).copyBranch = st.copyBranch := by
  intro f
  induction f with
  | zero => intro st; simp [singleLoop]
  | succ n ih =>
    intro st
    have hstep := singleStep_copyBranch opt env st h
    simp only [singleLoop]
    cases hms : singleStep opt env st with
    | stop s => rw [hms] at hstep; simpa only [StepOut.state] using hstep
    | abort s => rw [hms] at hstep; simpa only [StepOut.state] using hstep
    | next s =>
      rw [hms] at hstep
      simp only [StepOut.state] at hstep
      exact (ih s).trans hstep

/-- On an empty inlier list the multi-match loop spins without touching the
model, score or inlier output. -/
theorem multiLoop_empty {M : Type} (opt : NestedRANSACOptimizer)
    (env : MultiEnv M) (h1 : 1 ≤ env.nonMinimalSampleSize)
    (h2 : env.nonMinimalSampleSize ≤ kNonMinimalSizeMulti opt env) :
    ∀ (f : Nat) (st : MultiState M), st.estimatedInliers = [] →
      (multiLoop opt env f st).estimatedModel = st.estimatedModel ∧
      (multiLoop opt env f st).estimatedScore = st.estimatedScore ∧
      (multiLoop opt env f st).estimatedInliers = [] := by
  intro f
  induction f with
  | zero => intro st h0; exact ⟨rfl, rfl, h0⟩
  | succ n ih =>
    intro st h0
    have hstep := multiStep_empty opt env st h1 h2 h0
    simp only [multiLoop, hstep]
    exact ih _ h0

/-- On an empty inlier list the single-match loop spins without touching
the model, score or inlier output. -/
theorem singleLoop_empty {M : Type} (opt : NestedRANSACOptimizer)
    (env : SingleEnv M) (h1 : 1 ≤ env.sampleSize)
    (h2 : env.sampleSize ≤ kNonMinimalSizeSingle opt env) :
    ∀ (f : Nat) (st : SingleState M), st.estimatedInliers = [] →
      (singleLoop opt env f st).estimatedModel = st.estimatedModel ∧
      (singleLoop opt env f st).estimatedScore = st.estimatedScore ∧
      (singleLoop opt env f st).estimatedInliers = [] := by
  intro f
  induction f with
  | zero => intro st h0; exact ⟨rfl, rfl, h0⟩
  | succ n ih =>
    intro st h0
    have hstep := singleStep_empty opt env st h1 h2 h0
    simp only [singleLoop, hstep]
    exact ih _ h0

/-- When the very first iteration would break, the loop leaves model,
score and inliers untouched. -/
theorem multiLoop_stop_small {M : Type} (opt : NestedRANSACOptimizer)
    (env : MultiEnv M) (st : MultiState M)
    (h : computeSampleSize (kNonMinimalSizeMulti opt env)
      st.estimatedInliers.length < env.nonMinimalSampleSize) :
    ∀ (f : Nat),
      (multiLoop opt env f st).estimatedModel = st.estimatedModel ∧
      (multiLoop opt env f st).estimatedScore = st.estimatedScore ∧
      (multiLoop opt env f st).estimatedInliers = st.estimatedInliers := by
  intro f
  cases f with
  | zero => exact ⟨rfl, rfl, rfl⟩
  | succ n =>
    simp [multiLoop, multiStep_stop_eq opt env st h]

/-- When the very first iteration would break, the loop leaves model,
score and inliers untouched (single-match path). -/
theorem singleLoop_stop_small {M : Type} (opt : NestedRANSACOptimizer)
    (env : SingleEnv M) (st : SingleState M)
    (h : computeSampleSize (kNonMinimalSizeSingle opt env)
      st.estimatedInliers.length < env.sampleSize) :
    ∀ (f : Nat),
      (singleLoop opt env f st).estimatedModel = st.estimatedModel ∧
      (singleLoop opt env f st).estimatedScore = st.estimatedScore ∧
      (singleLoop opt env f st).estimatedInliers = st.estimatedInliers := by
  intro f
  cases f with
  | zero => exact ⟨rfl, rfl, rfl⟩
  | succ n =>
    simp [singleLoop, singleStep_stop_eq opt env st h]

/-- A multi-match iteration records the computed sample size exactly when
it passes the break check. -/
theorem multiStep_sizes {M : Type} (opt : NestedRANSACOptimizer)
    (env : MultiEnv M) (st : MultiState M) :
    ((multiStep opt env st).state).sizesComputed =
      if computeSampleSize (kNonMinimalSizeMulti opt env)
          st.estimatedInliers.length < env.nonMinimalSampleSize
      then st.sizesComputed
      else st.sizesComputed ++ [computeSampleSize
        (kNonMinimalSizeMulti opt env) st.estimatedInliers.length] := by
  simp only [multiStep]
  split
  case isTrue h => simp [StepOut.state, h]
  case isFalse h =>
    rcases h1 : (multiDraw env st (computeSampleSize
        (kNonMinimalSizeMulti opt env) st.estimatedInliers.length)).1
      with _ | sm
    · simp [h1, StepOut.state, h]
    · rcases h2 : env.estimateNonminimal sm with _ | ms
      · simp [h1, h2, StepOut.state, h]
      · simp only [h1, h2, StepOut.state]
        rw [(foldl_updateBestMulti_ghost env _ _).2.1]

/-- A single-match iteration records the computed sample size exactly when
it passes the break check. -/
theorem singleStep_sizes {M : Type} (opt : NestedRANSACOptimizer)
    (env : SingleEnv M) (st : SingleState M) :
    ((singleStep opt env st).state).sizesComputed =
      if computeSampleSize (kNonMinimalSizeSingle opt env)
          st.estimatedInliers.length < env.sampleSize
      then st.sizesComputed
      else st.sizesComputed ++ [computeSampleSize
        (kNonMinimalSizeSingle opt env) st.estimatedInliers.length] := by
  simp only [singleStep]
  split
  case isTrue h => simp [StepOut.state, h]
  case isFalse h =>
    rcases h1 : (singleDraw env st (computeSampleSize
        (kNonMinimalSizeSingle opt env) st.estimatedInliers.length)).1
      with _ | sm
    · simp [h1, StepOut.state, h]
    · rcases h2 : env.estimateNonminimal sm with _ | ms
      · simp [h1, h2, StepOut.state, h]
      · simp only [h1, h2, StepOut.state]
        rw [(foldl_updateBestSingle_ghost env _ _).2.1]

/-- A multi-match iteration `break`s exactly when the computed sample size
is below the non-minimal floor. -/
theorem multiStep_isStop {M : Type} (opt : NestedRANSACOptimizer)
    (env : MultiEnv M) (st : MultiState M) :
    (multiStep opt env st).isStop =
      decide (computeSampleSize (kNonMinimalSizeMulti opt env)
        st.estimatedInliers.length < env.nonMinimalSampleSize) := by
  simp only [multiStep]
  split
  case isTrue h => simp [StepOut.isStop, h]
  case isFalse h =>
    rcases h1 : (multiDraw env st (computeSampleSize
        (kNonMinimalSizeMulti opt env) st.estimatedInliers.length)).1
      with _ | sm
    · simp [h1, StepOut.isStop, h]
    · rcases h2 : env.estimateNonminimal sm with _ | ms
      · simp [h1, h2, StepOut.isStop, h]
      · simp [h1, h2, StepOut.isStop, h]

/-- A single-match iteration `break`s exactly when the computed sample
size is below the minimal floor. -/
theorem singleStep_isStop {M : Type} (opt : NestedRANSACOptimizer)
    (env : SingleEnv M) (st : SingleState M) :
    (singleStep opt env st).isStop =
      decide (computeSampleSize (kNonMinimalSizeSingle opt env)
        st.estimatedInliers.length < env.sampleSize) := by
  simp only [singleStep]
  split
  case isTrue h => simp [StepOut.isStop, h]
  case isFalse h =>
    rcases h1 : (singleDraw env st (computeSampleSize
        (kNonMinimalSizeSingle opt env) st.estimatedInliers.length)).1
      with _ | sm
    · simp [h1, StepOut.isStop, h]
    · rcases h2 : env.estimateNonminimal sm with _ | ms
      · simp [h1, h2, StepOut.isStop, h]
      · simp [h1, h2, StepOut.isStop, h]

/-! ### Claim theorems -/

/-- C5: in both `run` overloads, a re-estimated candidate model replaces
the current best model/score/inliers exactly when its rescored score is
strictly greater than the current best score, and upon replacement the
uniform sampler is re-initialized over the new inlier pool (with the
`size() - 1` argument the source passes to `initialize`). -/
theorem adoption_iff_strict_improvement :
    ∀ (M : Type) (envM : MultiEnv M) (stM : MultiState M) (mM : M)
      (envS : SingleEnv M) (stS : SingleState M) (mS : M),
      ((Score.gtb (envM.scoreModel mM).1 stM.estimatedScore = true ∧
          updateBestMulti envM stM mM = { stM with
            estimatedModel := mM
            estimatedScore := (envM.scoreModel mM).1
            estimatedInliers := (envM.scoreModel mM).2
            sampler := samplerInitCall stM.sampler
              (usub1 (envM.scoreModel mM).2.length) }) ∨
        (Score.gtb (envM.scoreModel mM).1 stM.estimatedScore = false ∧
          updateBestMulti envM stM mM = stM)) ∧
      ((Score.gtb (envS.scoreModel mS).1 stS.estimatedScore = true ∧
          updateBestSingle envS stS mS = { stS with
            estimatedModel := mS
            estimatedScore := (envS.scoreModel mS).1
            estimatedInliers := (envS.scoreModel mS).2
            sampler := samplerInitCall stS.sampler
              (usub1 (envS.scoreModel mS).2.length) }) ∨
        (Score.gtb (envS.scoreModel mS).1 stS.estimatedScore = false ∧
          updateBestSingle envS stS mS = stS)) := by
  intro M envM stM mM envS stS mS
  constructor
  · cases h : Score.gtb (envM.scoreModel mM).1 stM.estimatedScore
    · exact Or.inr ⟨rfl, by simp [updateBestMulti, h]⟩
    · exact Or.inl ⟨rfl, by simp [updateBestMulti, h]⟩
  · cases h : Score.gtb (envS.scoreModel mS).1 stS.estimatedScore
    · exact Or.inr ⟨rfl, by simp [updateBestSingle, h]⟩
    · exact Or.inl ⟨rfl, by simp [updateBestSingle, h]⟩

/-- C6: the member initializers of a default-constructed `RANSACSettings`
and of a default-constructed `NestedRANSACOptimizer`. -/
theorem default_settings_values :
    RANSACSettings.mkDefault.minIterations = 1000 ∧
    RANSACSettings.mkDefault.maxIterations = 5000 ∧
    RANSACSettings.mkDefault.coreNumber = 4 ∧
    RANSACSettings.mkDefault.inlierThreshold = 1.5 ∧
    RANSACSettings.mkDefault.confidence = 0.99 ∧
    RANSACSettings.mkDefault.scoring = ScoringType.MAGSAC ∧
    RANSACSettings.mkDefault.sampler = SamplerType.Uniform ∧
    RANSACSettings.mkDefault.localOptimization
      = LocalOptimizationType.NestedRANSAC ∧
    RANSACSettings.mkDefault.finalOptimization
      = LocalOptimizationType.IRLS ∧
    RANSACSettings.mkDefault.terminationCriterion
      = TerminationType.RANSAC ∧
    RANSACSettings.mkDefault.localOptimizationSettings.maxIterations = 50 ∧
    RANSACSettings.mkDefault.localOptimizationSettings.sampleSizeMultiplier
      = 7 ∧
    NestedRANSACOptimizer.mkDefault.maxIterations = 50 ∧
    NestedRANSACOptimizer.mkDefault.sampleSizeMultiplier = 7 :=
  ⟨rfl, rfl, rfl, rfl, rfl, rfl, rfl, rfl, rfl, rfl, rfl, rfl, rfl, rfl⟩

/-- C7: in both `run` overloads the inner refinement loop enters at most
`maxIterations` iterations, so it always terminates. -/
theorem inner_loop_iteration_bound :
    ∀ (M : Type) (opt : NestedRANSACOptimizer) (envM : MultiEnv M)
      (envS : SingleEnv M) (mM mS : M) (sM sS : Score)
      (ilM : List (Nat × Nat)) (ilS : List Nat),
      (NestedRANSACOptimizer.runMulti opt envM mM sM ilM).iters
        ≤ opt.maxIterations ∧
      (NestedRANSACOptimizer.runSingle opt envS mS sS ilS).iters
        ≤ opt.maxIterations := by
  intro M opt envM envS mM mS sM sS ilM ilS
  constructor
  · have h := multiLoop_iters_le opt envM opt.maxIterations
      (runMultiInit envM mM)
    have h0 : (runMultiInit envM mM).iters = 0 := rfl
    rw [h0] at h
    simpa [NestedRANSACOptimizer.runMulti] using h
  · have h := singleLoop_iters_le opt envS opt.maxIterations
      (runSingleInit envS mS)
    have h0 : (runSingleInit envS mS).iters = 0 := rfl
    rw [h0] at h
    simpa [NestedRANSACOptimizer.runSingle] using h

/-- C8: the output of both `run` overloads is independent of the incoming
score argument `kScore_`, which the bodies never read. -/
theorem output_independent_of_kScore :
    ∀ (M : Type) (opt : NestedRANSACOptimizer) (envM : MultiEnv M)
      (envS : SingleEnv M) (mM mS : M) (s1 s2 : Score)
      (ilM : List (Nat × Nat)) (ilS : List Nat),
      NestedRANSACOptimizer.runMulti opt envM mM s1 ilM
        = NestedRANSACOptimizer.runMulti opt envM mM s2 ilM ∧
      NestedRANSACOptimizer.runSingle opt envS mS s1 ilS
        = NestedRANSACOptimizer.runSingle opt envS mS s2 ilS :=
  fun _ _ _ _ _ _ _ _ _ _ => ⟨rfl, rfl⟩

/-- C1 counterexample: `kScore_` is never read, and the returned score is
the rescoring of the input model, so a call whose incoming score exceeds
that rescoring returns a score strictly below `kScore_`: here the incoming
score has quality 100 but the returned score has quality 0. -/
theorem run_score_can_drop_below_kScore :
    Score.gtb ⟨true, 100, 0⟩
      (NestedRANSACOptimizer.runMulti optSmall envRescoreZero 0
        ⟨true, 100, 0⟩ []).estimatedScore = true := by decide

/-- C1 (amended): in both `run` overloads the returned score is greater
than or equal (under the Score ordering) to the rescored baseline score of
the input model `kModel_`; it is not in general `≥ kScore_`, because the
incoming score is never read and the baseline is recomputed. -/
theorem run_score_ge_rescored_baseline :
    ∀ (M : Type) (opt : NestedRANSACOptimizer) (envM : MultiEnv M)
      (envS : SingleEnv M) (mM mS : M) (sM sS : Score)
      (ilM : List (Nat × Nat)) (ilS : List Nat),
      Score.gtb (envM.scoreModel mM).1
        (NestedRANSACOptimizer.runMulti opt envM mM sM ilM).estimatedScore
        = false ∧
      Score.gtb (envS.scoreModel mS).1
        (NestedRANSACOptimizer.runSingle opt envS mS sS ilS).estimatedScore
        = false := by
  intro M opt envM envS mM mS sM sS ilM ilS
  constructor
  · exact multiLoop_score opt envM _ opt.maxIterations (runMultiInit envM mM)
      (Score.gtb_irrefl _)
  · exact singleLoop_score opt envS _ opt.maxIterations
      (runSingleInit envS mS) (Score.gtb_irrefl _)

/-- C2 counterexample: in the multi-match overload an
`estimateModelNonminimal` failure is an early `return`, not a `continue`:
with a budget of 2 iterations and an always-failing estimator the loop is
abandoned after the first iteration. -/
theorem multi_estimator_failure_abandons_loop :
    (NestedRANSACOptimizer.runMulti optSmall envEstFailMulti 0
      Score.invalid []).earlyReturn = true ∧
    (NestedRANSACOptimizer.runMulti optSmall envEstFailMulti 0
      Score.invalid []).iters = 1 ∧
    optSmall.maxIterations = 2 := by decide

/-- C2 (amended): when `estimateModelNonminimal` fails in an inner
iteration, the single-match overload discards the candidate and continues
with the next iteration, but the multi-match overload returns from `run`
immediately, abandoning the remaining iterations. -/
theorem estimator_failure_single_continues_multi_returns :
    ∀ (M : Type) (opt : NestedRANSACOptimizer) (envM : MultiEnv M)
      (stM : MultiState M) (envS : SingleEnv M) (stS : SingleState M)
      (smM : List (Nat × Nat)) (smS : List Nat),
      multiEstInput opt envM stM = some smM →
      envM.estimateNonminimal smM = none →
      singleEstInput opt envS stS = some smS →
      envS.estimateNonminimal smS = none →
      (multiStep opt envM stM).isAbort = true ∧
      (singleStep opt envS stS).isNext = true := by
  intro M opt envM stM envS stS smM smS hm1 hm2 hs1 hs2
  constructor
  · simp only [multiEstInput] at hm1
    simp only [multiStep]
    by_cases hc : computeSampleSize (kNonMinimalSizeMulti opt envM)
        stM.estimatedInliers.length < envM.nonMinimalSampleSize
    · simp [hc] at hm1
    · simp only [if_neg hc] at hm1 ⊢
      simp [hm1, hm2, StepOut.isAbort]
  · simp only [singleEstInput] at hs1
    simp only [singleStep]
    by_cases hc : computeSampleSize (kNonMinimalSizeSingle opt envS)
        stS.estimatedInliers.length < envS.sampleSize
    · simp [hc] at hs1
    · simp only [if_neg hc] at hs1 ⊢
      simp [hs1, hs2, StepOut.isNext]

/-- Witness for the amended C2 theorem at a concrete failing estimator. -/
theorem estimator_failure_single_continues_multi_returns_witness :
    (multiStep optSmall envEstFailMulti
      (runMultiInit envEstFailMulti 0)).isAbort = true ∧
    (singleStep optSmall envEstFailSingle
      (runSingleInit envEstFailSingle 0)).isNext = true :=
  estimator_failure_single_continues_multi_returns Nat optSmall
    envEstFailMulti (runMultiInit envEstFailMulti 0) envEstFailSingle
    (runSingleInit envEstFailSingle 0) [(0, 0), (1, 1)] [0, 1]
    (by decide) (by decide) (by decide) (by decide)

/-- C3 counterexample: on a too-small inlier set the call is not the
identity on score and inliers: the input model is rescored, so the returned
score and inlier set are the rescoring results, not the incoming `kScore_`
and `kInliers_`. -/
theorem small_inliers_not_a_noop :
    (NestedRANSACOptimizer.runMulti optSmall envRescoreFive 0
      ⟨true, 3, 0⟩ [(9, 9)]).estimatedScore ≠ ⟨true, 3, 0⟩ ∧
    (NestedRANSACOptimizer.runMulti optSmall envRescoreFive 0
      ⟨true, 3, 0⟩ [(9, 9)]).estimatedInliers ≠ [(9, 9)] := by decide

/-- C3 (amended): when the rescored inlier set of the input model is empty
or too small to draw a non-minimal sample, both `run` overloads return the
input model `kModel_` together with the rescoring of `kModel_` (score and
inliers); the incoming `kScore_` and `kInliers_` are not echoed back. -/
theorem small_inliers_returns_rescored_model :
    ∀ (M : Type) (opt : NestedRANSACOptimizer) (envM : MultiEnv M)
      (envS : SingleEnv M) (mM mS : M) (sM sS : Score)
      (ilM : List (Nat × Nat)) (ilS : List Nat),
      1 ≤ envM.nonMinimalSampleSize →
      envM.nonMinimalSampleSize ≤ kNonMinimalSizeMulti opt envM →
      (envM.scoreModel mM).2.length ≤ envM.nonMinimalSampleSize →
      1 ≤ envS.sampleSize →
      envS.sampleSize ≤ kNonMinimalSizeSingle opt envS →
      (envS.scoreModel mS).2.length ≤ envS.sampleSize →
      ((NestedRANSACOptimizer.runMulti opt envM mM sM ilM).estimatedModel
          = mM ∧
        (NestedRANSACOptimizer.runMulti opt envM mM sM ilM).estimatedScore
          = (envM.scoreModel mM).1 ∧
        (NestedRANSACOptimizer.runMulti opt envM mM sM ilM).estimatedInliers
          = (envM.scoreModel mM).2) ∧
      ((NestedRANSACOptimizer.runSingle opt envS mS sS ilS).estimatedModel
          = mS ∧
        (NestedRANSACOptimizer.runSingle opt envS mS sS ilS).estimatedScore
          = (envS.scoreModel mS).1 ∧
        (NestedRANSACOptimizer.runSingle opt envS mS sS
          ilS).estimatedInliers = (envS.scoreModel mS).2) := by
  intro M opt envM envS mM mS sM sS ilM ilS h1 h2 h3 h4 h5 h6
  constructor
  · rcases hn : (envM.scoreModel mM).2 with _ | ⟨a, l⟩
    · obtain ⟨ha, hb, hc⟩ := multiLoop_empty opt envM h1 h2
        opt.maxIterations (runMultiInit envM mM) hn
      exact ⟨ha, hb, hc⟩
    · have hge1 : 1 ≤ (envM.scoreModel mM).2.length := by rw [hn]; simp
      have hu : usub1 ((envM.scoreModel mM).2.length)
          = (envM.scoreModel mM).2.length - 1 := by
        unfold usub1
        rw [if_neg (by omega)]
      have hstop : computeSampleSize (kNonMinimalSizeMulti opt envM)
          ((envM.scoreModel mM).2.length) < envM.nonMinimalSampleSize := by
        rw [computeSampleSize_eq_min, hu]
        omega
      obtain ⟨ha, hb, hc⟩ := multiLoop_stop_small opt envM
        (runMultiInit envM mM) hstop opt.maxIterations
      exact ⟨ha, hb, hc.trans hn⟩
  · rcases hn : (envS.scoreModel mS).2 with _ | ⟨a, l⟩
    · obtain ⟨ha, hb, hc⟩ := singleLoop_empty opt envS h4 h5
        opt.maxIterations (runSingleInit envS mS) hn
      exact ⟨ha, hb, hc⟩
    · have hge1 : 1 ≤ (envS.scoreModel mS).2.length := by rw [hn]; simp
      have hu : usub1 ((envS.scoreModel mS).2.length)
          = (envS.scoreModel mS).2.length - 1 := by
        unfold usub1
        rw [if_neg (by omega)]
      have hstop : computeSampleSize (kNonMinimalSizeSingle opt envS)
          ((envS.scoreModel mS).2.length) < envS.sampleSize := by
        rw [computeSampleSize_eq_min, hu]
        omega
      obtain ⟨ha, hb, hc⟩ := singleLoop_stop_small opt envS
        (runSingleInit envS mS) hstop opt.maxIterations
      exact ⟨ha, hb, hc.trans hn⟩

/-- Witness for the amended C3 theorem at concrete inputs whose rescored
inlier sets are empty. -/
theorem small_inliers_returns_rescored_model_witness :
    ((NestedRANSACOptimizer.runMulti optSmall envRescoreFive 0
        ⟨true, 3, 0⟩ [(9, 9)]).estimatedModel = 0 ∧
      (NestedRANSACOptimizer.runMulti optSmall envRescoreFive 0
        ⟨true, 3, 0⟩ [(9, 9)]).estimatedScore
        = (envRescoreFive.scoreModel 0).1 ∧
      (NestedRANSACOptimizer.runMulti optSmall envRescoreFive 0
        ⟨true, 3, 0⟩ [(9, 9)]).estimatedInliers
        = (envRescoreFive.scoreModel 0).2) ∧
    ((NestedRANSACOptimizer.runSingle optSmall envEmptySingle 0
        ⟨true, 3, 0⟩ [9]).estimatedModel = 0 ∧
      (NestedRANSACOptimizer.runSingle optSmall envEmptySingle 0
        ⟨true, 3, 0⟩ [9]).estimatedScore
        = (envEmptySingle.scoreModel 0).1 ∧
      (NestedRANSACOptimizer.runSingle optSmall envEmptySingle 0
        ⟨true, 3, 0⟩ [9]).estimatedInliers
        = (envEmptySingle.scoreModel 0).2) :=
  small_inliers_returns_rescored_model Nat optSmall envRescoreFive
    envEmptySingle 0 0 ⟨true, 3, 0⟩ ⟨true, 3, 0⟩ [(9, 9)] [9]
    (by decide) (by decide) (by decide) (by decide) (by decide) (by decide)

/-- C4 counterexample: the single-match overload budgets and floors with
the estimator's minimal `sampleSize()`, not `nonMinimalSampleSize()`: with
minimal size 2, non-minimal size 5, multiplier 1 and four inliers, the
recorded sample size of the single executed iteration is
`min(1*2, 3) = 2`, not the claimed `min(1*5, 3) = 3`. -/
theorem single_sample_size_not_nonminimal_formula :
    (NestedRANSACOptimizer.runSingle optUnit envMinimalFloor 0
      Score.invalid []).sizesComputed ≠
      [min (optUnit.sampleSizeMultiplier
          * envMinimalFloor.nonMinimalSampleSize)
        (usub1 (envMinimalFloor.scoreModel 0).2.length)] := by decide

/-- C4 (amended): in every inner iteration of either overload, the
computed sample size is `min(budget, |inliers| - 1)` in `size_t`
arithmetic, where the budget is `sampleSizeMultiplier *
nonMinimalSampleSize()` in the multi-match overload but `sampleSizeMultiplier
* sampleSize()` in the single-match overload; the iteration records that
size and proceeds exactly when it is not below the overload's floor
(`nonMinimalSampleSize()` resp. `sampleSize()`), and `break`s exactly when
it is. -/
theorem sample_size_and_break_characterization :
    ∀ (M : Type) (opt : NestedRANSACOptimizer) (envM : MultiEnv M)
      (stM : MultiState M) (envS : SingleEnv M) (stS : SingleState M),
      computeSampleSize (kNonMinimalSizeMulti opt envM)
          stM.estimatedInliers.length
        = min (kNonMinimalSizeMulti opt envM)
            (usub1 stM.estimatedInliers.length) ∧
      ((multiStep opt envM stM).state).sizesComputed =
        (if computeSampleSize (kNonMinimalSizeMulti opt envM)
            stM.estimatedInliers.length < envM.nonMinimalSampleSize
         then stM.sizesComputed
         else stM.sizesComputed ++ [computeSampleSize
           (kNonMinimalSizeMulti opt envM) stM.estimatedInliers.length]) ∧
      (multiStep opt envM stM).isStop =
        decide (computeSampleSize (kNonMinimalSizeMulti opt envM)
          stM.estimatedInliers.length < envM.nonMinimalSampleSize) ∧
      computeSampleSize (kNonMinimalSizeSingle opt envS)
          stS.estimatedInliers.length
        = min (kNonMinimalSizeSingle opt envS)
            (usub1 stS.estimatedInliers.length) ∧
      ((singleStep opt envS stS).state).sizesComputed =
        (if computeSampleSize (kNonMinimalSizeSingle opt envS)
            stS.estimatedInliers.length < envS.sampleSize
         then stS.sizesComputed
         else stS.sizesComputed ++ [computeSampleSize
           (kNonMinimalSizeSingle opt envS) stS.estimatedInliers.length]) ∧
      (singleStep opt envS stS).isStop =
        decide (computeSampleSize (kNonMinimalSizeSingle opt envS)
          stS.estimatedInliers.length < envS.sampleSize) :=
  fun M opt envM stM envS stS =>
    ⟨computeSampleSize_eq_min _ _, multiStep_sizes opt envM stM,
      multiStep_isStop opt envM stM, computeSampleSize_eq_min _ _,
      singleStep_sizes opt envS stS, singleStep_isStop opt envS stS⟩

/-- C9 counterexample: in the single-match overload the budget is
`sampleSizeMultiplier * sampleSize()` (line 230), not `sampleSizeMultiplier
* nonMinimalSampleSize()` as the claim states: with minimal size 2,
non-minimal size 3 and multiplier 7, the sample size computed on an empty
rescored inlier set is `7 * 2 = 14`, not the claimed `7 * 3 = 21`. -/
theorem single_empty_wrap_budget_not_nonminimal :
    computeSampleSize (kNonMinimalSizeSingle optSmall envEmptySingle)
        (envEmptySingle.scoreModel 0).2.length ≠
      optSmall.sampleSizeMultiplier
        * envEmptySingle.nonMinimalSampleSize := by decide

/-- C9 (amended): when the initial rescoring of the input model yields an empty
inlier set, `estimatedInliers_.size() - 1` wraps to `2^64 - 1`, the
computed sample size becomes the overload's whole budget —
`sampleSizeMultiplier * nonMinimalSampleSize()` in the multi-match
overload but `sampleSizeMultiplier * sampleSize()` in the single-match
overload — not a value below the floor, and the sampler is initialized
with pool size `2^64 - 1`. -/
theorem empty_rescoring_wraps :
    ∀ (M : Type) (opt : NestedRANSACOptimizer) (envM : MultiEnv M)
      (envS : SingleEnv M) (mM mS : M),
      (envM.scoreModel mM).2 = [] →
      (envS.scoreModel mS).2 = [] →
      opt.sampleSizeMultiplier * envM.nonMinimalSampleSize < u64 →
      opt.sampleSizeMultiplier * envS.sampleSize < u64 →
      1 ≤ opt.sampleSizeMultiplier →
      ((runMultiInit envM mM).sampler.poolBound = u64 - 1 ∧
        computeSampleSize (kNonMinimalSizeMulti opt envM)
            (envM.scoreModel mM).2.length
          = opt.sampleSizeMultiplier * envM.nonMinimalSampleSize ∧
        ¬ computeSampleSize (kNonMinimalSizeMulti opt envM)
            (envM.scoreModel mM).2.length < envM.nonMinimalSampleSize) ∧
      ((runSingleInit envS mS).sampler.poolBound = u64 - 1 ∧
        computeSampleSize (kNonMinimalSizeSingle opt envS)
            (envS.scoreModel mS).2.length
          = opt.sampleSizeMultiplier * envS.sampleSize ∧
        ¬ computeSampleSize (kNonMinimalSizeSingle opt envS)
            (envS.scoreModel mS).2.length < envS.sampleSize) := by
  intro M opt envM envS mM mS hM hS hprodM hprodS hmult
  have hKM : kNonMinimalSizeMulti opt envM
      = opt.sampleSizeMultiplier * envM.nonMinimalSampleSize :=
    Nat.mod_eq_of_lt hprodM
  have hKS : kNonMinimalSizeSingle opt envS
      = opt.sampleSizeMultiplier * envS.sampleSize :=
    Nat.mod_eq_of_lt hprodS
  have hcM : computeSampleSize (kNonMinimalSizeMulti opt envM)
      (envM.scoreModel mM).2.length
      = opt.sampleSizeMultiplier * envM.nonMinimalSampleSize := by
    rw [hM, List.length_nil,
      computeSampleSize_zero _ (kNonMinimalSizeMulti_lt_u64 opt envM), hKM]
  have hcS : computeSampleSize (kNonMinimalSizeSingle opt envS)
      (envS.scoreModel mS).2.length
      = opt.sampleSizeMultiplier * envS.sampleSize := by
    rw [hS, List.length_nil,
      computeSampleSize_zero _ (kNonMinimalSizeSingle_lt_u64 opt envS), hKS]
  refine ⟨⟨?_, hcM, ?_⟩, ⟨?_, hcS, ?_⟩⟩
  · show usub1 (envM.scoreModel mM).2.length = u64 - 1
    rw [hM]
    simp [usub1]
  · rw [hcM]
    have := Nat.le_mul_of_pos_left envM.nonMinimalSampleSize hmult
    omega
  · show usub1 (envS.scoreModel mS).2.length = u64 - 1
    rw [hS]
    simp [usub1]
  · rw [hcS]
    have := Nat.le_mul_of_pos_left envS.sampleSize hmult
    omega

/-- Witness for the amended C9 theorem at concrete inputs whose rescoring
yields
no inliers. -/
theorem empty_rescoring_wraps_witness :
    ((runMultiInit envRescoreZero 0).sampler.poolBound = u64 - 1 ∧
      computeSampleSize (kNonMinimalSizeMulti optSmall envRescoreZero)
          (envRescoreZero.scoreModel 0).2.length
        = optSmall.sampleSizeMultiplier
          * envRescoreZero.nonMinimalSampleSize ∧
      ¬ computeSampleSize (kNonMinimalSizeMulti optSmall envRescoreZero)
          (envRescoreZero.scoreModel 0).2.length
          < envRescoreZero.nonMinimalSampleSize) ∧
    ((runSingleInit envEmptySingle 0).sampler.poolBound = u64 - 1 ∧
      computeSampleSize (kNonMinimalSizeSingle optSmall envEmptySingle)
          (envEmptySingle.scoreModel 0).2.length
        = optSmall.sampleSizeMultiplier * envEmptySingle.sampleSize ∧
      ¬ computeSampleSize (kNonMinimalSizeSingle optSmall envEmptySingle)
          (envEmptySingle.scoreModel 0).2.length
          < envEmptySingle.sampleSize) :=
  empty_rescoring_wraps Nat optSmall envRescoreZero envEmptySingle 0 0
    (by decide) (by decide) (by decide) (by decide) (by decide)

/-- C10: with an estimator whose (non-)minimal sample size is at least 1,
the copy-all-inliers branch (`currentSampleSize == estimatedInliers_.size()`)
never runs in either overload. -/
theorem copy_branch_unreachable :
    ∀ (M : Type) (opt : NestedRANSACOptimizer) (envM : MultiEnv M)
      (envS : SingleEnv M) (mM mS : M) (sM sS : Score)
      (ilM : List (Nat × Nat)) (ilS : List Nat),
      1 ≤ envM.nonMinimalSampleSize →
      1 ≤ envS.sampleSize →
      (NestedRANSACOptimizer.runMulti opt envM mM sM ilM).copyBranch
        = false ∧
      (NestedRANSACOptimizer.runSingle opt envS mS sS ilS).copyBranch
        = false := by
  intro M opt envM envS mM mS sM sS ilM ilS h1 h2
  constructor
  · have h := multiLoop_copyBranch opt envM h1 opt.maxIterations
      (runMultiInit envM mM)
    have h0 : (runMultiInit envM mM).copyBranch = false := rfl
    rw [h0] at h
    exact h
  · have h := singleLoop_copyBranch opt envS h2 opt.maxIterations
      (runSingleInit envS mS)
    have h0 : (runSingleInit envS mS).copyBranch = false := rfl
    rw [h0] at h
    exact h

/-- Witness for the C10 theorem at concrete estimators with positive
sample sizes. -/
theorem copy_branch_unreachable_witness :
    (NestedRANSACOptimizer.runMulti optSmall envEstFailMulti 0
      Score.invalid []).copyBranch = false ∧
    (NestedRANSACOptimizer.runSingle optSmall envEstFailSingle 0
      Score.invalid []).copyBranch = false :=
  copy_branch_unreachable Nat optSmall envEstFailMulti envEstFailSingle
    0 0 Score.invalid Score.invalid [] [] (by decide) (by decide)

end StereoGlue
